import Mathlib

/-!
# Verification of the hipi-ups platform driver (src/hipi-ups.c)

Shallow embedding of the driver's state machine.  The dynamic state of
`struct gpio_data` is modelled by the structure `gpio_data` below; the two
kernel timing facilities the driver uses are modelled by their documented
semantics:

* `struct delayed_work shutdown_work` is modelled as an `Option Nat`
  (`some d` = the work is pending with expiry deadline `d` in ms,
  `none` = idle).  `schedule_delayed_work` (via `queue_delayed_work`) is
  documented to return `false` and leave the work untouched when the work
  is already pending; only `mod_delayed_work` would reset the pending
  timer.  The driver calls `schedule_delayed_work`.
* `struct timer_list ups_online_timer` is modelled as an `Option Nat`
  (`some d` = armed with expiry deadline `d`).  `mod_timer` always
  (re)arms the timer to the new deadline; `del_timer_sync` disarms it.

Time is `Nat` milliseconds.  GPIO levels are `Int` (the C return type of
`gpiod_get_value`, which can also be a negative errno).  `orderly_poweroff`
invocations are counted in the state.
-/

/-- SHUTDOWN_DELAY_MS from the source: wait 60 s after a power fault before
starting poweroff in case power returns. -/
def SHUTDOWN_DELAY_MS : Nat := 60000

/-- UPS_ONLINE_WATCHDOG_TIMEOUT_MS from the source: the UPS heartbeat
toggles every 500 ms; wait 2 s before declaring the UPS offline. -/
def UPS_ONLINE_WATCHDOG_TIMEOUT_MS : Nat := 2000

/-- Dynamic state of `struct gpio_data` plus the observables the claims
mention.  `shutdown_work` models the pending state of the delayed work
(`some` deadline when pending), `ups_online_timer` the armed state of the
watchdog timer, `status_value` the level driven on the status output GPIO
(`none` before the line is acquired), and `poweroff_count` the number of
`orderly_poweroff` invocations so far. -/
structure gpio_data where
  ups_online : Bool
  shutdown_work : Option Nat
  ups_online_timer : Option Nat
  status_value : Option Int
  poweroff_count : Nat
deriving DecidableEq

/-- Model of Linux `schedule_delayed_work`/`queue_delayed_work` on a
delayed work item: if the work is already pending it is left untouched
(the call merely returns false); otherwise it is queued with the given
expiry deadline. -/
def schedule_delayed_work (pending : Option Nat) (deadline : Nat) : Option Nat :=
  match pending with
  | some d => some d
  | none => some deadline

/-- Model of Linux `cancel_delayed_work_sync`: the work is not pending
afterwards, and the call waits for a running callback, so after it returns
the callback can no longer run. -/
def cancel_delayed_work_sync (_pending : Option Nat) : Option Nat := none

/-- Model of Linux `mod_timer`: (re)arms the timer to the new deadline,
whether or not it was already armed. -/
def mod_timer (_timer : Option Nat) (deadline : Nat) : Option Nat := some deadline

/-- Model of Linux `del_timer_sync`: the timer is disarmed and any running
callback has finished when the call returns. -/
def del_timer_sync (_timer : Option Nat) : Option Nat := none

/-- Model of `orderly_poweroff(force)`: the external ShutdownAction; we
count invocations. -/
def orderly_poweroff (_force : Bool) (count : Nat) : Nat := count + 1

/-- `ups_online_timer_callback` from the source: the watchdog expired
because the UPS heartbeat went missing; set `ups_online` to false (and log,
which we do not model). -/
def ups_online_timer_callback (data : gpio_data) : gpio_data :=
  { data with ups_online := false }

/-- `shutdown_work_handler` from the source: the shutdown delay elapsed;
log and call `orderly_poweroff(true)` unconditionally (no GPIO level is
read here). -/
def shutdown_work_handler (data : gpio_data) : gpio_data :=
  { data with poweroff_count := orderly_poweroff true data.poweroff_count }

/-- `ups_online_irq_handler` from the source: on any heartbeat edge, if the
flag was clear set `ups_online` (logging the transition), then reset the
watchdog timer to `now + UPS_ONLINE_WATCHDOG_TIMEOUT_MS` via `mod_timer`. -/
def ups_online_irq_handler (now : Nat) (data : gpio_data) : gpio_data :=
  let data1 := if data.ups_online then data else { data with ups_online := true }
  { data1 with
      ups_online_timer :=
        mod_timer data1.ups_online_timer (now + UPS_ONLINE_WATCHDOG_TIMEOUT_MS) }

/-- `power_irq_handler` from the source: re-read the power-fault line
(`val = gpiod_get_value(power_desc)`, supplied here by the environment);
if the value is 1 the power is lost, so schedule the shutdown work for
`SHUTDOWN_DELAY_MS` from now; for every other value (0, or a negative
errno) the power is treated as restored and the pending shutdown work is
cancelled. -/
def power_irq_handler (now : Nat) (val : Int) (data : gpio_data) : gpio_data :=
  if val = 1 then
    { data with
        shutdown_work :=
          schedule_delayed_work data.shutdown_work (now + SHUTDOWN_DELAY_MS) }
  else
    { data with shutdown_work := cancel_delayed_work_sync data.shutdown_work }

/-- An edge event delivered by the interrupt machinery: either an edge of
the power-fault line (the handler then reads level `val`), or an edge of
the UPS heartbeat line (the handler ignores the direction). -/
inductive Edge where
  | power (val : Int)
  | heartbeat
deriving DecidableEq

/-- An execution event: an edge at time `t`, or the expiry of one of the
two timing facilities at time `t` (an expiry event only has an effect when
the corresponding deadline is due, `d ≤ t`). -/
inductive Event where
  | edge (t : Nat) (e : Edge)
  | workExpire (t : Nat)
  | watchdogExpire (t : Nat)
deriving DecidableEq

/-- One execution step of the driver: dispatch an event to the handler the
kernel would run.  A pending delayed work / armed timer fires only when its
deadline is due; the kernel clears the pending/armed state before running
the callback. -/
def step (data : gpio_data) : Event → gpio_data
  | Event.edge t (Edge.power val) => power_irq_handler t val data
  | Event.edge t Edge.heartbeat => ups_online_irq_handler t data
  | Event.workExpire t =>
      match data.shutdown_work with
      | some d =>
          if d ≤ t then shutdown_work_handler { data with shutdown_work := none }
          else data
      | none => data
  | Event.watchdogExpire t =>
      match data.ups_online_timer with
      | some d =>
          if d ≤ t then ups_online_timer_callback { data with ups_online_timer := none }
          else data
      | none => data

/-- Advance the wall clock to time `t`: fire each of the two timing
facilities whose deadline is due (neither callback re-arms itself, so each
fires at most once).  When an edge arrives exactly at a deadline the
expiry is delivered first. -/
def fireDue (data : gpio_data) (t : Nat) : gpio_data :=
  step (step data (Event.workExpire t)) (Event.watchdogExpire t)

/-- Deterministic timed execution of a list of edges (times are taken
nondecreasing): before each edge is handled the clock is advanced to its
time, firing any due deadline first. -/
def execEdges (data : gpio_data) : List (Nat × Edge) → gpio_data
  | [] => data
  | (t, e) :: rest => execEdges (step (fireDue data t) (Event.edge t e)) rest

/-- Run a trace of edges and then advance the clock to the observation
time `T`, firing any still-due deadline. -/
def runTrace (data : gpio_data) (es : List (Nat × Edge)) (T : Nat) : gpio_data :=
  fireDue (execEdges data es) T

/-- Environment of one `hipi_ups_probe` call: the outcome of each external
acquisition, and the boot-time level of the power-fault line.  The source
stores `gpiod_to_irq(ups_online_desc)` without checking its sign, so a bad
online IRQ number only surfaces through the request outcome. -/
structure ProbeEnv where
  status_gpiod : Except Int Unit
  power_gpiod : Except Int Unit
  initial_power_level : Int
  power_irq : Int
  power_irq_request : Except Int Unit
  online_gpiod : Except Int Unit
  online_irq : Int
  online_irq_request : Except Int Unit

/-- The zero-initialised `gpio_data` produced by `devm_kzalloc` plus the
two explicit initialisations at the top of `hipi_ups_probe`
(`ups_online = false`; no work pending, no timer armed, status line not
yet acquired). -/
def kzalloc_data : gpio_data :=
  { ups_online := false
    shutdown_work := none
    ups_online_timer := none
    status_value := none
    poweroff_count := 0 }

/-- `hipi_ups_probe` from the source, step by step in source order:
acquire the status GPIO as output-low and explicitly write 0; init the
delayed work; acquire the power GPIO; if the line already reads nonzero
(boot-time fault) schedule the shutdown work; map and request the power
IRQ; set up and later arm the watchdog timer; acquire the online GPIO and
request its IRQ; finally arm the watchdog.  On failure the error is
returned together with the state left behind (devm-managed resources are
released by the kernel, but nothing else is undone by the source). -/
def hipi_ups_probe (env : ProbeEnv) (now : Nat) : Except (Int × gpio_data) gpio_data :=
  let data := kzalloc_data
  match env.status_gpiod with
  | Except.error e => Except.error (e, data)
  | Except.ok _ =>
  let data := { data with status_value := some 0 }
  match env.power_gpiod with
  | Except.error e => Except.error (e, data)
  | Except.ok _ =>
  let data :=
    if env.initial_power_level ≠ 0 then
      { data with
          shutdown_work :=
            schedule_delayed_work data.shutdown_work (now + SHUTDOWN_DELAY_MS) }
    else data
  if env.power_irq < 0 then Except.error (env.power_irq, data)
  else
  match env.power_irq_request with
  | Except.error e => Except.error (e, data)
  | Except.ok _ =>
  match env.online_gpiod with
  | Except.error e => Except.error (e, data)
  | Except.ok _ =>
  match env.online_irq_request with
  | Except.error e => Except.error (e, data)
  | Except.ok _ =>
  Except.ok
    { data with
        ups_online_timer :=
          mod_timer data.ups_online_timer (now + UPS_ONLINE_WATCHDOG_TIMEOUT_MS) }

/-- `hipi_ups_remove` from the source: `del_timer_sync` on the watchdog,
then `cancel_delayed_work_sync` on the shutdown work, then (if the status
line was acquired) drive the status output to 1 (stopping). -/
def hipi_ups_remove (data : gpio_data) : gpio_data :=
  let data1 := { data with ups_online_timer := del_timer_sync data.ups_online_timer }
  let data2 := { data1 with shutdown_work := cancel_delayed_work_sync data1.shutdown_work }
  match data2.status_value with
  | some _ => { data2 with status_value := some 1 }
  | none => data2

/-- A ProbeEnv in which every acquisition succeeds and the power line
reads 0 (no boot-time fault). -/
def envOk : ProbeEnv :=
  { status_gpiod := Except.ok ()
    power_gpiod := Except.ok ()
    initial_power_level := 0
    power_irq := 17
    power_irq_request := Except.ok ()
    online_gpiod := Except.ok ()
    online_irq := 23
    online_irq_request := Except.ok () }

/-- The attached state right after a fully successful probe at time 0 with
no boot-time fault. -/
def attached0 : gpio_data :=
  { ups_online := false
    shutdown_work := none
    ups_online_timer := some UPS_ONLINE_WATCHDOG_TIMEOUT_MS
    status_value := some 0
    poweroff_count := 0 }

/-- True of edges whose handler takes the cancel branch: a power edge
whose re-read level is anything other than 1 ("restore"). -/
def isRestore : Edge → Bool
  | Edge.power v => decide (v ≠ 1)
  | Edge.heartbeat => false

/-- A restore edge occurs in `es` strictly before time `d` (and so would
cancel a shutdown work pending with deadline `d`). -/
def cancels_before (es : List (Nat × Edge)) (d : Nat) : Prop :=
  ∃ p ∈ es, isRestore p.2 = true ∧ p.1 < d

/-- No restore edge of `es` falls strictly inside the window
`(t, t + SHUTDOWN_DELAY_MS)`. -/
def window_clear (es : List (Nat × Edge)) (t : Nat) : Prop :=
  ∀ q ∈ es, isRestore q.2 = true → ¬(t < q.1 ∧ q.1 < t + SHUTDOWN_DELAY_MS)

/-- Some fault edge in `es` is followed by no restore edge within
`SHUTDOWN_DELAY_MS`, and its deadline falls inside the observation window
`T`.  This is the (corrected) firing condition for the shutdown. -/
def fault_fires (es : List (Nat × Edge)) (T : Nat) : Prop :=
  ∃ p ∈ es, p.2 = Edge.power 1 ∧ p.1 + SHUTDOWN_DELAY_MS ≤ T ∧ window_clear es p.1

instance (es : List (Nat × Edge)) (d : Nat) : Decidable (cancels_before es d) := by
  unfold cancels_before; exact inferInstance

instance (es : List (Nat × Edge)) (t : Nat) : Decidable (window_clear es t) := by
  unfold window_clear; exact inferInstance

instance (es : List (Nat × Edge)) (T : Nat) : Decidable (fault_fires es T) := by
  unfold fault_fires window_clear; exact inferInstance

/-- The firing condition asserted by the specification, verbatim: the most
recent edge of the trace is a fault edge and no restore edge arrived
within `SHUTDOWN_DELAY_MS` of it.  (Boolean so that it can be evaluated on
a concrete trace.) -/
def claimed_fires (es : List (Nat × Edge)) : Bool :=
  match es.getLast? with
  | some (t, Edge.power 1) =>
      es.all fun q =>
        !(isRestore q.2 && decide (t < q.1) && decide (q.1 < t + SHUTDOWN_DELAY_MS))
  | _ => false

/-- The combined firing condition when execution starts with the shutdown
work in state `w`: either an already-pending deadline survives every
restore edge and falls inside the window, or a fault edge of the trace
fires (`fault_fires`). -/
def fires_from (w : Option Nat) (es : List (Nat × Edge)) (T : Nat) : Prop :=
  (∃ d, w = some d ∧ d ≤ T ∧ ¬cancels_before es d) ∨ fault_fires es T

/-- A ProbeEnv describing a boot with the power-fault line already high
(boot-time fault) in which the online GPIO acquisition then fails with
-ENOENT: the probe error path after the shutdown work was scheduled. -/
def envBootFault : ProbeEnv :=
  { status_gpiod := Except.ok ()
    power_gpiod := Except.ok ()
    initial_power_level := 1
    power_irq := 17
    power_irq_request := Except.ok ()
    online_gpiod := Except.error (-2)
    online_irq := 23
    online_irq_request := Except.ok () }

/-- An attached state with a shutdown pending at 120000 ms and the
watchdog armed for 5 ms, used to evaluate theorems on concrete inputs. -/
def sPending : gpio_data :=
  { ups_online := true
    shutdown_work := some 120000
    ups_online_timer := some 5
    status_value := some 0
    poweroff_count := 0 }

/- ------------------------------------------------------------------ -/
/- Helper lemmas about the handlers, the step function and the traces. -/
/- ------------------------------------------------------------------ -/

theorem power_irq_handler_ups_online (now : Nat) (val : Int) (data : gpio_data) :
    (power_irq_handler now val data).ups_online = data.ups_online := by
  unfold power_irq_handler; split <;> rfl

theorem power_irq_handler_ups_online_timer (now : Nat) (val : Int) (data : gpio_data) :
    (power_irq_handler now val data).ups_online_timer = data.ups_online_timer := by
  unfold power_irq_handler; split <;> rfl

theorem power_irq_handler_status_value (now : Nat) (val : Int) (data : gpio_data) :
    (power_irq_handler now val data).status_value = data.status_value := by
  unfold power_irq_handler; split <;> rfl

theorem power_irq_handler_poweroff_count (now : Nat) (val : Int) (data : gpio_data) :
    (power_irq_handler now val data).poweroff_count = data.poweroff_count := by
  unfold power_irq_handler; split <;> rfl

theorem power_irq_handler_shutdown_work (now : Nat) (val : Int) (data : gpio_data) :
    (power_irq_handler now val data).shutdown_work =
      if val = 1 then
        match data.shutdown_work with
        | some d => some d
        | none => some (now + SHUTDOWN_DELAY_MS)
      else none := by
  unfold power_irq_handler schedule_delayed_work cancel_delayed_work_sync
  split <;> rfl

/-- A fault edge delivered while the shutdown work is already pending
leaves the whole state unchanged: `schedule_delayed_work` does not touch
pending work. -/
theorem power_irq_handler_pending (now : Nat) (data : gpio_data) (d : Nat)
    (h : data.shutdown_work = some d) :
    power_irq_handler now 1 data = data := by
  cases data with
  | mk uo sw ut sv pc =>
    simp only [gpio_data.mk.injEq] at h ⊢
    simp [power_irq_handler, schedule_delayed_work, h]

/-- A restore edge delivered while no shutdown work is pending leaves the
whole state unchanged. -/
theorem power_irq_handler_idle (now : Nat) (val : Int) (data : gpio_data)
    (hv : val ≠ 1) (h : data.shutdown_work = none) :
    power_irq_handler now val data = data := by
  cases data with
  | mk uo sw ut sv pc =>
    simp only [gpio_data.mk.injEq] at h ⊢
    simp [power_irq_handler, cancel_delayed_work_sync, hv, h]

theorem ups_online_irq_handler_ups_online (now : Nat) (data : gpio_data) :
    (ups_online_irq_handler now data).ups_online = true := by
  unfold ups_online_irq_handler
  by_cases h : data.ups_online <;> simp [h]

theorem ups_online_irq_handler_ups_online_timer (now : Nat) (data : gpio_data) :
    (ups_online_irq_handler now data).ups_online_timer =
      some (now + UPS_ONLINE_WATCHDOG_TIMEOUT_MS) := by
  unfold ups_online_irq_handler mod_timer
  by_cases h : data.ups_online <;> simp [h]

theorem ups_online_irq_handler_shutdown_work (now : Nat) (data : gpio_data) :
    (ups_online_irq_handler now data).shutdown_work = data.shutdown_work := by
  unfold ups_online_irq_handler
  by_cases h : data.ups_online <;> simp [h]

theorem ups_online_irq_handler_status_value (now : Nat) (data : gpio_data) :
    (ups_online_irq_handler now data).status_value = data.status_value := by
  unfold ups_online_irq_handler
  by_cases h : data.ups_online <;> simp [h]

theorem ups_online_irq_handler_poweroff_count (now : Nat) (data : gpio_data) :
    (ups_online_irq_handler now data).poweroff_count = data.poweroff_count := by
  unfold ups_online_irq_handler
  by_cases h : data.ups_online <;> simp [h]

theorem step_workExpire_eq (data : gpio_data) (t : Nat) :
    step data (Event.workExpire t) =
      match data.shutdown_work with
      | some d =>
          if d ≤ t then
            { data with shutdown_work := none,
                        poweroff_count := data.poweroff_count + 1 }
          else data
      | none => data := by
  cases h : data.shutdown_work with
  | none => simp [step, h]
  | some d =>
    by_cases hd : d ≤ t <;>
      simp [step, h, hd, shutdown_work_handler, orderly_poweroff]

theorem step_watchdogExpire_eq (data : gpio_data) (t : Nat) :
    step data (Event.watchdogExpire t) =
      match data.ups_online_timer with
      | some d =>
          if d ≤ t then { data with ups_online := false, ups_online_timer := none }
          else data
      | none => data := by
  cases h : data.ups_online_timer with
  | none => simp [step, h]
  | some d =>
    by_cases hd : d ≤ t <;>
      simp [step, h, hd, ups_online_timer_callback]

theorem step_watchdogExpire_shutdown_work (data : gpio_data) (t : Nat) :
    (step data (Event.watchdogExpire t)).shutdown_work = data.shutdown_work := by
  rw [step_watchdogExpire_eq]
  cases h : data.ups_online_timer with
  | none => simp
  | some d => by_cases hd : d ≤ t <;> simp [hd]

theorem step_watchdogExpire_poweroff_count (data : gpio_data) (t : Nat) :
    (step data (Event.watchdogExpire t)).poweroff_count = data.poweroff_count := by
  rw [step_watchdogExpire_eq]
  cases h : data.ups_online_timer with
  | none => simp
  | some d => by_cases hd : d ≤ t <;> simp [hd]

theorem step_watchdogExpire_status_value (data : gpio_data) (t : Nat) :
    (step data (Event.watchdogExpire t)).status_value = data.status_value := by
  rw [step_watchdogExpire_eq]
  cases h : data.ups_online_timer with
  | none => simp
  | some d => by_cases hd : d ≤ t <;> simp [hd]

theorem step_workExpire_ups_online (data : gpio_data) (t : Nat) :
    (step data (Event.workExpire t)).ups_online = data.ups_online := by
  rw [step_workExpire_eq]
  cases h : data.shutdown_work with
  | none => simp
  | some d => by_cases hd : d ≤ t <;> simp [hd]

theorem step_workExpire_ups_online_timer (data : gpio_data) (t : Nat) :
    (step data (Event.workExpire t)).ups_online_timer = data.ups_online_timer := by
  rw [step_workExpire_eq]
  cases h : data.shutdown_work with
  | none => simp
  | some d => by_cases hd : d ≤ t <;> simp [hd]

theorem fireDue_shutdown_work (data : gpio_data) (t : Nat) :
    (fireDue data t).shutdown_work =
      match data.shutdown_work with
      | some d => if d ≤ t then none else some d
      | none => none := by
  unfold fireDue
  rw [step_watchdogExpire_shutdown_work, step_workExpire_eq]
  cases h : data.shutdown_work with
  | none => simp [h]
  | some d => by_cases hd : d ≤ t <;> simp [hd, h]

theorem fireDue_poweroff_count (data : gpio_data) (t : Nat) :
    (fireDue data t).poweroff_count =
      match data.shutdown_work with
      | some d => if d ≤ t then data.poweroff_count + 1 else data.poweroff_count
      | none => data.poweroff_count := by
  unfold fireDue
  rw [step_watchdogExpire_poweroff_count, step_workExpire_eq]
  cases h : data.shutdown_work with
  | none => simp
  | some d => by_cases hd : d ≤ t <;> simp [hd, h]

theorem fireDue_status_value (data : gpio_data) (t : Nat) :
    (fireDue data t).status_value = data.status_value := by
  unfold fireDue
  rw [step_watchdogExpire_status_value, step_workExpire_eq]
  cases h : data.shutdown_work with
  | none => simp
  | some d => by_cases hd : d ≤ t <;> simp [hd, h]

theorem step_status_value (data : gpio_data) (ev : Event) :
    (step data ev).status_value = data.status_value := by
  cases ev with
  | edge t e =>
    cases e with
    | power v => exact power_irq_handler_status_value t v data
    | heartbeat => exact ups_online_irq_handler_status_value t data
  | workExpire t =>
    rw [step_workExpire_eq]
    cases h : data.shutdown_work with
    | none => simp
    | some d => by_cases hd : d ≤ t <;> simp [hd]
  | watchdogExpire t =>
    rw [step_watchdogExpire_eq]
    cases h : data.ups_online_timer with
    | none => simp
    | some d => by_cases hd : d ≤ t <;> simp [hd]

theorem execEdges_status_value (es : List (Nat × Edge)) :
    ∀ data : gpio_data, (execEdges data es).status_value = data.status_value := by
  induction es with
  | nil => intro data; rfl
  | cons p rest ih =>
    intro data
    cases p with
    | mk t e =>
      rw [execEdges, ih, step_status_value, fireDue_status_value]

theorem runTrace_status_value (data : gpio_data) (es : List (Nat × Edge)) (T : Nat) :
    (runTrace data es T).status_value = data.status_value := by
  unfold runTrace
  rw [fireDue_status_value, execEdges_status_value]

/-- Generic fold lemma: an accumulator fixed by every element of the fold
stays fixed. -/
theorem foldl_fixed {α β : Type} (f : α → β → α) (a : α) (h : ∀ b, f a b = a) :
    ∀ l : List β, List.foldl f a l = a := by
  intro l
  induction l with
  | nil => rfl
  | cons b rest ih => rw [List.foldl_cons, h b, ih]

theorem step_edge_power (data : gpio_data) (t : Nat) (v : Int) :
    step data (Event.edge t (Edge.power v)) = power_irq_handler t v data := rfl

theorem step_edge_heartbeat (data : gpio_data) (t : Nat) :
    step data (Event.edge t Edge.heartbeat) = ups_online_irq_handler t data := rfl

/-- The deadline pending after advancing the clock to `t0` and delivering
one edge at `t0` is at most `SHUTDOWN_DELAY_MS` ahead of `t0`, provided
that was true of the deadline pending before. -/
theorem step_edge_work_bound (data : gpio_data) (t0 : Nat) (e0 : Edge)
    (hinv : ∀ d, data.shutdown_work = some d → d ≤ t0 + SHUTDOWN_DELAY_MS) :
    ∀ d, (step (fireDue data t0) (Event.edge t0 e0)).shutdown_work = some d →
      d ≤ t0 + SHUTDOWN_DELAY_MS := by
  have h1 : ∀ d1, (fireDue data t0).shutdown_work = some d1 →
      d1 ≤ t0 + SHUTDOWN_DELAY_MS := by
    intro d1 h
    rw [fireDue_shutdown_work] at h
    cases hw : data.shutdown_work with
    | none => rw [hw] at h; exact absurd h (by simp)
    | some d2 =>
      rw [hw] at h
      by_cases hdue : d2 ≤ t0
      · simp only [if_pos hdue] at h
        exact absurd h (by simp)
      · simp only [if_neg hdue] at h
        injection h with h
        have := hinv d2 hw
        omega
  intro d hd
  cases e0 with
  | heartbeat =>
    rw [step_edge_heartbeat, ups_online_irq_handler_shutdown_work] at hd
    exact h1 d hd
  | power v =>
    rw [step_edge_power, power_irq_handler_shutdown_work] at hd
    by_cases hv : v = 1
    · rw [if_pos hv] at hd
      cases hs : (fireDue data t0).shutdown_work with
      | none =>
        rw [hs] at hd
        injection hd with h
        omega
      | some d1 =>
        rw [hs] at hd
        injection hd with h
        have := h1 d1 hs
        omega
    · rw [if_neg hv] at hd
      exact absurd hd (by simp)

theorem fires_from_none (es : List (Nat × Edge)) (T : Nat) :
    fires_from none es T ↔ fault_fires es T := by
  simp [fires_from]

theorem fires_from_some (d : Nat) (es : List (Nat × Edge)) (T : Nat) :
    fires_from (some d) es T ↔ (d ≤ T ∧ ¬cancels_before es d) ∨ fault_fires es T := by
  simp [fires_from]

theorem cancels_before_cons (t0 : Nat) (e0 : Edge) (rest : List (Nat × Edge)) (d : Nat) :
    cancels_before ((t0, e0) :: rest) d ↔
      (isRestore e0 = true ∧ t0 < d) ∨ cancels_before rest d := by
  unfold cancels_before
  constructor
  · rintro ⟨p, hp, hr, hlt⟩
    rcases List.mem_cons.mp hp with h | h
    · subst h; exact Or.inl ⟨hr, hlt⟩
    · exact Or.inr ⟨p, h, hr, hlt⟩
  · rintro (⟨hr, hlt⟩ | ⟨p, hp, hr, hlt⟩)
    · exact ⟨(t0, e0), List.mem_cons_self _ _, hr, hlt⟩
    · exact ⟨p, List.mem_cons_of_mem _ hp, hr, hlt⟩

theorem window_clear_cons (t0 : Nat) (e0 : Edge) (rest : List (Nat × Edge)) (t : Nat) :
    window_clear ((t0, e0) :: rest) t ↔
      (isRestore e0 = true → ¬(t < t0 ∧ t0 < t + SHUTDOWN_DELAY_MS)) ∧
        window_clear rest t := by
  unfold window_clear
  constructor
  · intro h
    exact ⟨fun hr => h (t0, e0) (List.mem_cons_self _ _) hr,
           fun q hq => h q (List.mem_cons_of_mem _ hq)⟩
  · rintro ⟨h0, h⟩ q hq hr
    rcases List.mem_cons.mp hq with hh | hh
    · subst hh; exact h0 hr
    · exact h q hh hr

/-- A head edge at time at most `t` never lies in the open window starting
at `t`, so it can be dropped from `window_clear`. -/
theorem window_clear_cons_of_le (t0 : Nat) (e0 : Edge) (rest : List (Nat × Edge))
    (t : Nat) (h : t0 ≤ t) :
    window_clear ((t0, e0) :: rest) t ↔ window_clear rest t := by
  rw [window_clear_cons]
  constructor
  · exact And.right
  · intro hr
    exact ⟨fun _ hlt => absurd hlt.1 (Nat.not_lt.mpr h), hr⟩

theorem fault_fires_cons (t0 : Nat) (e0 : Edge) (rest : List (Nat × Edge)) (T : Nat) :
    fault_fires ((t0, e0) :: rest) T ↔
      (e0 = Edge.power 1 ∧ t0 + SHUTDOWN_DELAY_MS ≤ T ∧
        window_clear ((t0, e0) :: rest) t0) ∨
      (∃ p ∈ rest, p.2 = Edge.power 1 ∧ p.1 + SHUTDOWN_DELAY_MS ≤ T ∧
        window_clear ((t0, e0) :: rest) p.1) := by
  unfold fault_fires
  constructor
  · rintro ⟨p, hp, h1, h2, h3⟩
    rcases List.mem_cons.mp hp with hh | hh
    · subst hh; exact Or.inl ⟨h1, h2, h3⟩
    · exact Or.inr ⟨p, hh, h1, h2, h3⟩
  · rintro (⟨h1, h2, h3⟩ | ⟨p, hp, h1, h2, h3⟩)
    · exact ⟨(t0, e0), List.mem_cons_self _ _, h1, h2, h3⟩
    · exact ⟨p, List.mem_cons_of_mem _ hp, h1, h2, h3⟩

/-- A head edge that is not a fault edge contributes nothing to
`fault_fires` when all later edges happen strictly after it. -/
theorem fault_fires_cons_not_fault (t0 : Nat) (e0 : Edge) (rest : List (Nat × Edge))
    (T : Nat) (hnf : e0 ≠ Edge.power 1) (hrest : ∀ q ∈ rest, t0 < q.1) :
    fault_fires ((t0, e0) :: rest) T ↔ fault_fires rest T := by
  rw [fault_fires_cons]
  constructor
  · rintro (⟨h1, _, _⟩ | ⟨p, hp, h1, h2, h3⟩)
    · exact absurd h1 hnf
    · exact ⟨p, hp, h1, h2,
        (window_clear_cons_of_le _ _ _ _ (Nat.le_of_lt (hrest p hp))).mp h3⟩
  · rintro ⟨p, hp, h1, h2, h3⟩
    exact Or.inr ⟨p, hp, h1, h2,
      (window_clear_cons_of_le _ _ _ _ (Nat.le_of_lt (hrest p hp))).mpr h3⟩

/-- Decomposition of `fault_fires` when the head edge is a fault edge. -/
theorem fault_fires_cons_fault (t0 : Nat) (rest : List (Nat × Edge)) (T : Nat)
    (hrest : ∀ q ∈ rest, t0 < q.1) :
    fault_fires ((t0, Edge.power 1) :: rest) T ↔
      (t0 + SHUTDOWN_DELAY_MS ≤ T ∧ window_clear rest t0) ∨ fault_fires rest T := by
  rw [fault_fires_cons]
  have hwc : window_clear ((t0, Edge.power 1) :: rest) t0 ↔ window_clear rest t0 :=
    window_clear_cons_of_le _ _ _ _ (Nat.le_refl t0)
  constructor
  · rintro (⟨_, h2, h3⟩ | ⟨p, hp, h1, h2, h3⟩)
    · exact Or.inl ⟨h2, hwc.mp h3⟩
    · exact Or.inr ⟨p, hp, h1, h2,
        (window_clear_cons_of_le _ _ _ _ (Nat.le_of_lt (hrest p hp))).mp h3⟩
  · rintro (⟨h2, h3⟩ | ⟨p, hp, h1, h2, h3⟩)
    · exact Or.inl ⟨rfl, h2, hwc.mpr h3⟩
    · exact Or.inr ⟨p, hp, h1, h2,
        (window_clear_cons_of_le _ _ _ _ (Nat.le_of_lt (hrest p hp))).mpr h3⟩

/-- Effect of one edge (preceded by advancing the clock to its time) on
the poweroff count and the combined firing condition: the heart of the
trace characterisation.  All later edges happen strictly after `t0`, and
any pending deadline is at most `SHUTDOWN_DELAY_MS` in the future. -/
theorem fires_from_step (data : gpio_data) (t0 : Nat) (e0 : Edge)
    (rest : List (Nat × Edge)) (T : Nat)
    (hrest_gt : ∀ q ∈ rest, t0 < q.1) (ht0T : t0 ≤ T)
    (hinv : ∀ d, data.shutdown_work = some d → d ≤ t0 + SHUTDOWN_DELAY_MS) :
    (0 < (step (fireDue data t0) (Event.edge t0 e0)).poweroff_count ∨
      fires_from (step (fireDue data t0) (Event.edge t0 e0)).shutdown_work rest T) ↔
    (0 < data.poweroff_count ∨
      fires_from data.shutdown_work ((t0, e0) :: rest) T) := by
  have h1w := fireDue_shutdown_work data t0
  have h1c := fireDue_poweroff_count data t0
  cases hw : data.shutdown_work with
  | none =>
    simp only [hw] at h1w h1c
    cases e0 with
    | heartbeat =>
      have hsw : (step (fireDue data t0) (Event.edge t0 Edge.heartbeat)).shutdown_work
          = none := by
        show (ups_online_irq_handler t0 (fireDue data t0)).shutdown_work = none
        rw [ups_online_irq_handler_shutdown_work, h1w]
      have hsc : (step (fireDue data t0) (Event.edge t0 Edge.heartbeat)).poweroff_count
          = data.poweroff_count := by
        show (ups_online_irq_handler t0 (fireDue data t0)).poweroff_count = _
        rw [ups_online_irq_handler_poweroff_count, h1c]
      rw [hsw, hsc, fires_from_none, fires_from_none,
        fault_fires_cons_not_fault t0 Edge.heartbeat rest T (by simp) hrest_gt]
    | power v =>
      by_cases hv : v = 1
      · subst hv
        have hsw : (step (fireDue data t0) (Event.edge t0 (Edge.power 1))).shutdown_work
            = some (t0 + SHUTDOWN_DELAY_MS) := by
          show (power_irq_handler t0 1 (fireDue data t0)).shutdown_work = _
          rw [power_irq_handler_shutdown_work]
          simp [h1w]
        have hsc : (step (fireDue data t0) (Event.edge t0 (Edge.power 1))).poweroff_count
            = data.poweroff_count := by
          show (power_irq_handler t0 1 (fireDue data t0)).poweroff_count = _
          rw [power_irq_handler_poweroff_count, h1c]
        rw [hsw, hsc, fires_from_some, fires_from_none,
          fault_fires_cons_fault t0 rest T hrest_gt]
        have hkey : (¬cancels_before rest (t0 + SHUTDOWN_DELAY_MS)) ↔
            window_clear rest t0 := by
          unfold cancels_before window_clear
          constructor
          · intro h q hq hr hqw
            exact h ⟨q, hq, hr, hqw.2⟩
          · rintro h ⟨q, hq, hr, hlt⟩
            exact h q hq hr ⟨hrest_gt q hq, hlt⟩
        rw [hkey]
      · have hsw : (step (fireDue data t0) (Event.edge t0 (Edge.power v))).shutdown_work
            = none := by
          show (power_irq_handler t0 v (fireDue data t0)).shutdown_work = none
          rw [power_irq_handler_shutdown_work]
          simp [hv]
        have hsc : (step (fireDue data t0) (Event.edge t0 (Edge.power v))).poweroff_count
            = data.poweroff_count := by
          show (power_irq_handler t0 v (fireDue data t0)).poweroff_count = _
          rw [power_irq_handler_poweroff_count, h1c]
        rw [hsw, hsc, fires_from_none, fires_from_none,
          fault_fires_cons_not_fault t0 (Edge.power v) rest T (by simp [hv]) hrest_gt]
  | some d0 =>
    simp only [hw] at h1w h1c
    by_cases hdue : d0 ≤ t0
    · rw [if_pos hdue] at h1w
      rw [if_pos hdue] at h1c
      have hd0T : d0 ≤ T := Nat.le_trans hdue ht0T
      have hcb : ¬cancels_before ((t0, e0) :: rest) d0 := by
        rw [cancels_before_cons]
        rintro (⟨_, hlt⟩ | ⟨q, hq, _, hlt⟩)
        · exact absurd hlt (Nat.not_lt.mpr hdue)
        · exact absurd hlt
            (Nat.not_lt.mpr (Nat.le_trans hdue (Nat.le_of_lt (hrest_gt q hq))))
      have hRHS : 0 < data.poweroff_count ∨
          fires_from (some d0) ((t0, e0) :: rest) T := by
        right
        rw [fires_from_some]
        exact Or.inl ⟨hd0T, hcb⟩
      have hLHS : 0 < (step (fireDue data t0) (Event.edge t0 e0)).poweroff_count := by
        cases e0 with
        | power v =>
          show 0 < (power_irq_handler t0 v (fireDue data t0)).poweroff_count
          rw [power_irq_handler_poweroff_count, h1c]
          exact Nat.succ_pos _
        | heartbeat =>
          show 0 < (ups_online_irq_handler t0 (fireDue data t0)).poweroff_count
          rw [ups_online_irq_handler_poweroff_count, h1c]
          exact Nat.succ_pos _
      exact iff_of_true (Or.inl hLHS) hRHS
    · rw [if_neg hdue] at h1w
      rw [if_neg hdue] at h1c
      have ht0d0 : t0 < d0 := Nat.not_le.mp hdue
      have hd0le : d0 ≤ t0 + SHUTDOWN_DELAY_MS := hinv d0 hw
      cases e0 with
      | heartbeat =>
        have hsw : (step (fireDue data t0) (Event.edge t0 Edge.heartbeat)).shutdown_work
            = some d0 := by
          show (ups_online_irq_handler t0 (fireDue data t0)).shutdown_work = _
          rw [ups_online_irq_handler_shutdown_work, h1w]
        have hsc : (step (fireDue data t0) (Event.edge t0 Edge.heartbeat)).poweroff_count
            = data.poweroff_count := by
          show (ups_online_irq_handler t0 (fireDue data t0)).poweroff_count = _
          rw [ups_online_irq_handler_poweroff_count, h1c]
        rw [hsw, hsc, fires_from_some, fires_from_some,
          fault_fires_cons_not_fault t0 Edge.heartbeat rest T (by simp) hrest_gt,
          cancels_before_cons]
        simp [isRestore]
      | power v =>
        by_cases hv : v = 1
        · subst hv
          have hsw : (step (fireDue data t0) (Event.edge t0 (Edge.power 1))).shutdown_work
              = some d0 := by
            show (power_irq_handler t0 1 (fireDue data t0)).shutdown_work = _
            rw [power_irq_handler_shutdown_work]
            simp [h1w]
          have hsc : (step (fireDue data t0) (Event.edge t0 (Edge.power 1))).poweroff_count
              = data.poweroff_count := by
            show (power_irq_handler t0 1 (fireDue data t0)).poweroff_count = _
            rw [power_irq_handler_poweroff_count, h1c]
          rw [hsw, hsc, fires_from_some, fires_from_some,
            fault_fires_cons_fault t0 rest T hrest_gt, cancels_before_cons]
          have hirr : isRestore (Edge.power 1) = false := by decide
          rw [hirr]
          simp only [Bool.false_eq_true, false_and, false_or]
          constructor
          · rintro (hc | (⟨hT, hnc⟩ | hff))
            · exact Or.inl hc
            · exact Or.inr (Or.inl ⟨hT, hnc⟩)
            · exact Or.inr (Or.inr (Or.inr hff))
          · rintro (hc | (⟨hT, hnc⟩ | (⟨hT, hwc⟩ | hff)))
            · exact Or.inl hc
            · exact Or.inr (Or.inl ⟨hT, hnc⟩)
            · refine Or.inr (Or.inl ⟨Nat.le_trans hd0le hT, ?_⟩)
              intro hcb
              obtain ⟨q, hq, hr, hlt⟩ := hcb
              exact hwc q hq hr
                ⟨hrest_gt q hq, Nat.lt_of_lt_of_le hlt hd0le⟩
            · exact Or.inr (Or.inr hff)
        · have hsw : (step (fireDue data t0) (Event.edge t0 (Edge.power v))).shutdown_work
              = none := by
            show (power_irq_handler t0 v (fireDue data t0)).shutdown_work = none
            rw [power_irq_handler_shutdown_work]
            simp [hv]
          have hsc : (step (fireDue data t0) (Event.edge t0 (Edge.power v))).poweroff_count
              = data.poweroff_count := by
            show (power_irq_handler t0 v (fireDue data t0)).poweroff_count = _
            rw [power_irq_handler_poweroff_count, h1c]
          rw [hsw, hsc, fires_from_none, fires_from_some,
            fault_fires_cons_not_fault t0 (Edge.power v) rest T (by simp [hv]) hrest_gt,
            cancels_before_cons]
          have hirr : isRestore (Edge.power v) = true := by simp [isRestore, hv]
          simp [hirr, ht0d0]

/-- Trace characterisation of the poweroff decision.  Starting from any
state whose pending deadline (if any) is at most `SHUTDOWN_DELAY_MS`
ahead of `tcur`, running a strictly time-ordered trace of edges inside the
window `[tcur, T]` invokes `orderly_poweroff` exactly when it was already
invoked, or an initially pending deadline survives every restore edge and
falls inside the window, or some fault edge of the trace is followed by no
restore edge within `SHUTDOWN_DELAY_MS` and its deadline falls inside the
window. -/
theorem runTrace_fires_iff (es : List (Nat × Edge)) :
    ∀ (data : gpio_data) (tcur T : Nat),
      List.Pairwise (fun p q : Nat × Edge => p.1 < q.1) es →
      (∀ p ∈ es, tcur ≤ p.1 ∧ p.1 ≤ T) →
      (∀ d, data.shutdown_work = some d → d ≤ tcur + SHUTDOWN_DELAY_MS) →
      (0 < (runTrace data es T).poweroff_count ↔
        0 < data.poweroff_count ∨ fires_from data.shutdown_work es T) := by
  induction es with
  | nil =>
    intro data tcur T _ _ _
    have hnil : runTrace data [] T = fireDue data T := rfl
    rw [hnil, fireDue_poweroff_count]
    cases h : data.shutdown_work with
    | none => simp [fires_from, fault_fires, h]
    | some d =>
      by_cases hd : d ≤ T <;>
        simp [fires_from, fault_fires, cancels_before, hd]
  | cons p rest ih =>
    intro data tcur T hpw hbnd hinv
    obtain ⟨t0, e0⟩ := p
    have hpc := List.pairwise_cons.mp hpw
    have hrest_gt : ∀ q ∈ rest, t0 < q.1 := hpc.1
    have hhead := hbnd (t0, e0) (List.mem_cons_self _ _)
    have hbnd' : ∀ q ∈ rest, t0 ≤ q.1 ∧ q.1 ≤ T := fun q hq =>
      ⟨Nat.le_of_lt (hrest_gt q hq), (hbnd q (List.mem_cons_of_mem _ hq)).2⟩
    have hinv' : ∀ d, (step (fireDue data t0) (Event.edge t0 e0)).shutdown_work = some d →
        d ≤ t0 + SHUTDOWN_DELAY_MS :=
      step_edge_work_bound data t0 e0
        (fun d hd => Nat.le_trans (hinv d hd) (Nat.add_le_add_right hhead.1 _))
    have hrun : runTrace data ((t0, e0) :: rest) T =
        runTrace (step (fireDue data t0) (Event.edge t0 e0)) rest T := rfl
    rw [hrun, ih (step (fireDue data t0) (Event.edge t0 e0)) t0 T hpc.2 hbnd' hinv']
    exact fires_from_step data t0 e0 rest T hrest_gt hhead.2
      (fun d hd => Nat.le_trans (hinv d hd) (Nat.add_le_add_right hhead.1 _))

/-- Characterisation of a successful probe: the attached state is offline,
the watchdog is armed once for `UPS_ONLINE_WATCHDOG_TIMEOUT_MS`, the
status line is driven low, no poweroff has happened, and the shutdown work
is pending exactly when the power line already read nonzero at boot. -/
theorem hipi_ups_probe_ok (env : ProbeEnv) (now : Nat) (data : gpio_data)
    (h : hipi_ups_probe env now = Except.ok data) :
    data.ups_online = false ∧
    data.ups_online_timer = some (now + UPS_ONLINE_WATCHDOG_TIMEOUT_MS) ∧
    data.status_value = some 0 ∧
    data.poweroff_count = 0 ∧
    data.shutdown_work =
      (if env.initial_power_level ≠ 0 then some (now + SHUTDOWN_DELAY_MS)
       else none) := by
  obtain ⟨sg, pg, ipl, pirq, preq, og, oirq, oreq⟩ := env
  cases sg <;> cases pg <;> cases preq <;> cases og <;> cases oreq <;>
    by_cases hi : ipl ≠ 0 <;> by_cases hp : pirq < 0 <;>
      simp_all [hipi_ups_probe, mod_timer, schedule_delayed_work, kzalloc_data] <;>
      (rw [← h]; simp)

/-- Characterisation of `hipi_ups_remove`: both timing facilities are
disarmed, and the status line (when acquired) is driven high. -/
theorem hipi_ups_remove_eq (data : gpio_data) :
    hipi_ups_remove data =
      (match data.status_value with
       | some _ =>
          { data with shutdown_work := none, ups_online_timer := none,
                      status_value := some 1 }
       | none => { data with shutdown_work := none, ups_online_timer := none }) := by
  unfold hipi_ups_remove del_timer_sync cancel_delayed_work_sync
  cases hsv : data.status_value <;> simp [hsv]

/- ------------------------------------------------------------------ -/
/- Claim theorems.                                                     -/
/- ------------------------------------------------------------------ -/

/-- C1, counterexample: after a fault edge at t=0 the shutdown work is
pending with deadline 60000; a second fault edge at t=1000 does NOT re-arm
the countdown to 61000 — the deadline stays 60000, refuting
"re-arms the shutdown timer, restarting the full countdown from that
edge". -/
theorem hipi_C1_counterexample :
    (power_irq_handler 1000 1 (power_irq_handler 0 1 attached0)).shutdown_work
      = some SHUTDOWN_DELAY_MS ∧
    (power_irq_handler 1000 1 (power_irq_handler 0 1 attached0)).shutdown_work
      ≠ some (1000 + SHUTDOWN_DELAY_MS) := by
  decide

/-- C1, amended: a fault edge delivered while a shutdown is already
pending is a complete no-op — `schedule_delayed_work` does not touch
pending work, so the original deadline is left untouched (and no second
shutdown accumulates); the countdown is NOT restarted from the new edge. -/
theorem hipi_C1_pending_fault_noop (now : Nat) (data : gpio_data) (d : Nat)
    (h : data.shutdown_work = some d) :
    power_irq_handler now 1 data = data ∧
    (power_irq_handler now 1 data).shutdown_work = some d := by
  have hfix := power_irq_handler_pending now data d h
  exact ⟨hfix, by rw [hfix, h]⟩

/-- Witness for C1: concrete pending state, fault edge at 5000 is a no-op. -/
theorem hipi_C1_witness :
    power_irq_handler 5000 1 (power_irq_handler 0 1 attached0)
      = power_irq_handler 0 1 attached0 ∧
    (power_irq_handler 5000 1 (power_irq_handler 0 1 attached0)).shutdown_work
      = some SHUTDOWN_DELAY_MS :=
  hipi_C1_pending_fault_noop 5000 (power_irq_handler 0 1 attached0)
    SHUTDOWN_DELAY_MS rfl

/-- C2, counterexample: for the trace fault@0, fault@30000, restore@70000
(delay 60000) the code invokes orderly_poweroff (at t=60000, measured from
the FIRST fault edge), while the claimed condition — most recent edge is a
fault with no restore within 60000 ms of it — is false (the most recent
edge is the restore; moreover the restore came 40000 ms after the most
recent fault edge).  The "iff" of the claim therefore fails. -/
theorem hipi_C2_counterexample :
    0 < (runTrace attached0
        [(0, Edge.power 1), (30000, Edge.power 1), (70000, Edge.power 0)]
        100000).poweroff_count ∧
    claimed_fires
        [(0, Edge.power 1), (30000, Edge.power 1), (70000, Edge.power 0)]
      = false := by
  constructor
  · decide
  · rfl

/-- C2, amended: starting from an attached state with no pending shutdown,
at most one shutdown work is pending at any instant (it is a single slot,
modelled by the `Option` state, and arming while pending is a no-op), and
orderly_poweroff is invoked iff SOME fault edge is followed by no restore
edge within `shutdown_delay_ms` (the countdown runs from the first fault
edge of a pending run, not the most recent); expiry of a due deadline
invokes the shutdown exactly once and unconditionally — no signal level is
re-read (second conjunct, which holds for every state and never consults a
level). -/
theorem hipi_C2_shutdown_iff (es : List (Nat × Edge)) (T : Nat) (data : gpio_data)
    (hsorted : List.Pairwise (fun p q : Nat × Edge => p.1 < q.1) es)
    (hT : ∀ p ∈ es, p.1 ≤ T)
    (hidle : data.shutdown_work = none)
    (hcount : data.poweroff_count = 0) :
    (0 < (runTrace data es T).poweroff_count ↔ fault_fires es T) ∧
    (∀ (s : gpio_data) (d t : Nat), s.shutdown_work = some d → d ≤ t →
      (fireDue s t).poweroff_count = s.poweroff_count + 1 ∧
      (fireDue s t).shutdown_work = none) := by
  constructor
  · have h := runTrace_fires_iff es data 0 T hsorted
      (fun p hp => ⟨Nat.zero_le _, hT p hp⟩)
      (fun d hd => by rw [hidle] at hd; cases hd)
    rw [h, hidle, fires_from_none, hcount]
    simp
  · intro s d t hs hd
    constructor
    · rw [fireDue_poweroff_count, hs]
      simp [hd]
    · rw [fireDue_shutdown_work, hs]
      simp [hd]

/-- Witness for C2: a single uncancelled fault edge at t=0 makes the
shutdown fire by t=60000. -/
theorem hipi_C2_witness :
    0 < (runTrace attached0 [(0, Edge.power 1)] SHUTDOWN_DELAY_MS).poweroff_count :=
  ((hipi_C2_shutdown_iff [(0, Edge.power 1)] SHUTDOWN_DELAY_MS attached0
      (by simp) (by simp) rfl rfl).1).mpr (by decide)

/-- C3: probe error paths do NOT cancel a boot-time-scheduled shutdown
work.  With the power line already high at boot and the online GPIO
acquisition failing, `hipi_ups_probe` returns the error but leaves the
shutdown work scheduled (deadline 60000): partial state IS retained,
contradicting the all-or-nothing claim — the claim is right and the code
is wrong (the leaked work would later run over freed device memory and
power the machine off although the driver never attached). -/
theorem hipi_C3_probe_error_leaves_work :
    ∃ e : Int, ∃ s : gpio_data,
      hipi_ups_probe envBootFault 0 = Except.error (e, s) ∧
      s.shutdown_work = some SHUTDOWN_DELAY_MS :=
  ⟨-2,
    { ups_online := false
      shutdown_work := some SHUTDOWN_DELAY_MS
      ups_online_timer := none
      status_value := some 0
      poweroff_count := 0 },
    rfl, rfl⟩

/-- C4: in the step semantics the `ups_online` flag changes false→true
only when a heartbeat edge is handled, and true→false only when the
watchdog expiry fires with its deadline due (i.e. no heartbeat edge
re-armed it in time); no other event changes the flag. -/
theorem hipi_C4_ups_online_transitions (data : gpio_data) (ev : Event)
    (h : (step data ev).ups_online ≠ data.ups_online) :
    (data.ups_online = false ∧ (step data ev).ups_online = true ∧
      ∃ t, ev = Event.edge t Edge.heartbeat) ∨
    (data.ups_online = true ∧ (step data ev).ups_online = false ∧
      ∃ t d, ev = Event.watchdogExpire t ∧
        data.ups_online_timer = some d ∧ d ≤ t) := by
  cases ev with
  | edge t e =>
    cases e with
    | power v =>
      rw [step_edge_power, power_irq_handler_ups_online] at h
      exact absurd rfl h
    | heartbeat =>
      have hup : (step data (Event.edge t Edge.heartbeat)).ups_online = true := by
        rw [step_edge_heartbeat]
        exact ups_online_irq_handler_ups_online t data
      left
      refine ⟨?_, hup, ⟨t, rfl⟩⟩
      cases hu : data.ups_online
      · rfl
      · rw [hup, hu] at h
        exact absurd rfl h
  | workExpire t =>
    rw [step_workExpire_ups_online] at h
    exact absurd rfl h
  | watchdogExpire t =>
    have he := step_watchdogExpire_eq data t
    cases ht : data.ups_online_timer with
    | none =>
      simp only [ht] at he
      rw [he] at h
      exact absurd rfl h
    | some d =>
      simp only [ht] at he
      by_cases hd : d ≤ t
      · rw [if_pos hd] at he
        rw [he] at h ⊢
        cases hu : data.ups_online
        · rw [hu] at h
          simp at h
        · right
          exact ⟨rfl, by simp, ⟨t, d, rfl, rfl, hd⟩⟩
      · rw [if_neg hd] at he
        rw [he] at h
        exact absurd rfl h

/-- Witness for C4: from the attached (offline) state a heartbeat edge at
t=5 changes the flag, and the change is the false→true heartbeat case. -/
theorem hipi_C4_witness :
    (attached0.ups_online = false ∧
      (step attached0 (Event.edge 5 Edge.heartbeat)).ups_online = true ∧
      ∃ t, Event.edge 5 Edge.heartbeat = Event.edge t Edge.heartbeat) ∨
    (attached0.ups_online = true ∧
      (step attached0 (Event.edge 5 Edge.heartbeat)).ups_online = false ∧
      ∃ t d, Event.edge 5 Edge.heartbeat = Event.watchdogExpire t ∧
        attached0.ups_online_timer = some d ∧ d ≤ t) :=
  hipi_C4_ups_online_transitions attached0 (Event.edge 5 Edge.heartbeat) (by decide)

/-- C5: a successful probe starts offline with the watchdog armed once
for `UPS_ONLINE_WATCHDOG_TIMEOUT_MS`; every heartbeat edge (the handler
ignores the edge direction) makes or keeps the state online and resets the
watchdog deadline to `UPS_ONLINE_WATCHDOG_TIMEOUT_MS` from the edge; and
when the armed deadline is due with no edge having re-armed it, expiry
transitions the state to offline. -/
theorem hipi_C5_heartbeat_watchdog (env : ProbeEnv) (now t : Nat)
    (data s : gpio_data) (hok : hipi_ups_probe env now = Except.ok data) :
    (data.ups_online = false ∧
      data.ups_online_timer = some (now + UPS_ONLINE_WATCHDOG_TIMEOUT_MS)) ∧
    ((ups_online_irq_handler t s).ups_online = true ∧
      (ups_online_irq_handler t s).ups_online_timer
        = some (t + UPS_ONLINE_WATCHDOG_TIMEOUT_MS)) ∧
    (∀ d, s.ups_online_timer = some d → d ≤ t →
      (step s (Event.watchdogExpire t)).ups_online = false ∧
      (step s (Event.watchdogExpire t)).ups_online_timer = none) := by
  have hp := hipi_ups_probe_ok env now data hok
  refine ⟨⟨hp.1, hp.2.1⟩,
    ⟨ups_online_irq_handler_ups_online t s,
     ups_online_irq_handler_ups_online_timer t s⟩, ?_⟩
  intro d hd hdt
  rw [step_watchdogExpire_eq]
  simp [hd, hdt]

/-- Witness for C5: probe with every acquisition succeeding, heartbeat at
t=7 on a state whose watchdog is armed for t=5, and the expiry at t=7. -/
theorem hipi_C5_witness :
    (attached0.ups_online = false ∧
      attached0.ups_online_timer = some (0 + UPS_ONLINE_WATCHDOG_TIMEOUT_MS)) ∧
    ((ups_online_irq_handler 7 sPending).ups_online = true ∧
      (ups_online_irq_handler 7 sPending).ups_online_timer
        = some (7 + UPS_ONLINE_WATCHDOG_TIMEOUT_MS)) ∧
    ((step sPending (Event.watchdogExpire 7)).ups_online = false ∧
      (step sPending (Event.watchdogExpire 7)).ups_online_timer = none) := by
  have h := hipi_C5_heartbeat_watchdog envOk 0 7 attached0 sPending rfl
  exact ⟨h.1, h.2.1, h.2.2 5 rfl (by decide)⟩

/-- C6: the status output reads 0 from a successful probe on; no edge
handler, timer callback or clock advance ever writes it during the
attached lifetime; and teardown sets it to 1 — after which this component
performs no further write (remove is the last operation it runs, and every
modelled operation other than remove preserves the line). -/
theorem hipi_C6_status_line (env : ProbeEnv) (now T : Nat)
    (data s : gpio_data) (es : List (Nat × Edge)) (v : Int) :
    (hipi_ups_probe env now = Except.ok data → data.status_value = some 0) ∧
    ((runTrace s es T).status_value = s.status_value) ∧
    (s.status_value = some v → (hipi_ups_remove s).status_value = some 1) := by
  refine ⟨fun h => (hipi_ups_probe_ok env now data h).2.2.1,
    runTrace_status_value s es T, fun h => ?_⟩
  rw [hipi_ups_remove_eq]
  simp [h]

/-- Witness for C6: the all-ok probe, a fault-edge trace, and teardown. -/
theorem hipi_C6_witness :
    attached0.status_value = some 0 ∧
    (runTrace attached0 [(0, Edge.power 1)] 100000).status_value
      = attached0.status_value ∧
    (hipi_ups_remove attached0).status_value = some 1 := by
  have h := hipi_C6_status_line envOk 0 100000 attached0 attached0
    [(0, Edge.power 1)] 0
  exact ⟨h.1 rfl, h.2.1, h.2.2 rfl⟩

/-- C7: teardown while a shutdown is armed-but-unfired disarms both the
watchdog timer and the pending shutdown work (the `_sync` cancellation
primitives also wait out any in-flight callback), does not itself invoke
the shutdown, leaves the status line high, and afterwards no deadline can
ever fire again — advancing the clock past teardown is a no-op, so
orderly_poweroff is never invoked after teardown completes and no armed
timer is leaked. -/
theorem hipi_C7_detach_cancels (s : gpio_data) (t : Nat) (v : Int) :
    (hipi_ups_remove s).shutdown_work = none ∧
    (hipi_ups_remove s).ups_online_timer = none ∧
    (hipi_ups_remove s).poweroff_count = s.poweroff_count ∧
    fireDue (hipi_ups_remove s) t = hipi_ups_remove s ∧
    (s.status_value = some v → (hipi_ups_remove s).status_value = some 1) := by
  rw [hipi_ups_remove_eq]
  cases hsv : s.status_value with
  | none =>
    refine ⟨rfl, rfl, rfl, rfl, fun hv => ?_⟩
    cases hv
  | some w =>
    exact ⟨rfl, rfl, rfl, rfl, fun _ => rfl⟩

/-- Witness for C7: teardown of a state with the shutdown armed for
t=120000 and the watchdog armed for t=5, then the clock advanced far past
both deadlines. -/
theorem hipi_C7_witness :
    (hipi_ups_remove sPending).shutdown_work = none ∧
    (hipi_ups_remove sPending).ups_online_timer = none ∧
    (hipi_ups_remove sPending).poweroff_count = sPending.poweroff_count ∧
    fireDue (hipi_ups_remove sPending) 500000 = hipi_ups_remove sPending ∧
    (hipi_ups_remove sPending).status_value = some 1 := by
  have h := hipi_C7_detach_cancels sPending 500000 0
  exact ⟨h.1, h.2.1, h.2.2.1, h.2.2.2.1, h.2.2.2.2 rfl⟩

/-- C8: N ≥ 1 consecutive identical edges delivered to the power-fault
handler (all reading the same level `v`) leave exactly the state of
delivering a single such edge (the first of the run): for v = 1 the first
edge arms the work and the rest are no-ops; for any other v each edge
cancels and the state after the first is already idle. -/
theorem hipi_C8_identical_edges_idempotent (v : Int) (s : gpio_data)
    (t0 : Nat) (ts : List Nat) :
    List.foldl (fun a t => power_irq_handler t v a) s (t0 :: ts)
      = power_irq_handler t0 v s := by
  rw [List.foldl_cons]
  apply foldl_fixed
  intro t
  by_cases hv : v = 1
  · subst hv
    have hex : ∃ d, (power_irq_handler t0 1 s).shutdown_work = some d := by
      rw [power_irq_handler_shutdown_work]
      cases hw : s.shutdown_work with
      | none => exact ⟨t0 + SHUTDOWN_DELAY_MS, by simp⟩
      | some d => exact ⟨d, by simp⟩
    obtain ⟨d, hd⟩ := hex
    exact power_irq_handler_pending t (power_irq_handler t0 1 s) d hd
  · have hnone : (power_irq_handler t0 v s).shutdown_work = none := by
      rw [power_irq_handler_shutdown_work, if_neg hv]
    exact power_irq_handler_idle t v (power_irq_handler t0 v s) hv hnone

/-- C9: the power-fault handler is a function of the level it re-reads
(the model passes the `gpiod_get_value` result `val` explicitly, and the
edge direction is not an input at all): after the handler runs, a shutdown
is pending iff `val = 1`, and for every other value — 0 or a negative
errno — the pending shutdown is cancelled; the handler never invokes the
shutdown itself and never touches the heartbeat state. -/
theorem hipi_C9_level_driven (now : Nat) (val : Int) (s : gpio_data) :
    ((val = 1 → (power_irq_handler now val s).shutdown_work.isSome = true) ∧
     (val ≠ 1 → (power_irq_handler now val s).shutdown_work = none)) ∧
    (power_irq_handler now val s).ups_online = s.ups_online ∧
    (power_irq_handler now val s).poweroff_count = s.poweroff_count := by
  refine ⟨⟨fun hv => ?_, fun hv => ?_⟩,
    power_irq_handler_ups_online now val s,
    power_irq_handler_poweroff_count now val s⟩
  · rw [power_irq_handler_shutdown_work, if_pos hv]
    cases s.shutdown_work <;> simp
  · rw [power_irq_handler_shutdown_work, if_neg hv]

/-- Witness for C9: level 1 leaves a pending shutdown; the errno -5 (an
error return of gpiod_get_value) cancels the pending shutdown. -/
theorem hipi_C9_witness :
    (power_irq_handler 0 1 attached0).shutdown_work.isSome = true ∧
    (power_irq_handler 0 (-5) sPending).shutdown_work = none :=
  ⟨(hipi_C9_level_driven 0 1 attached0).1.1 rfl,
   (hipi_C9_level_driven 0 (-5) sPending).1.2 (by decide)⟩
